import Mathlib

/- Verification development for the serverless-compose CLI driver
   (src/index.js).  Strings are modelled as lists of characters; the three
   regular expressions of the variable resolver are embedded together with
   the stateful `lastIndex` semantics that JavaScript gives to `/g` regexes
   used through `RegExp.prototype.test`. -/

namespace ServerlessCompose

abbrev Str := List Char

/- regex `\w` (ASCII): letters, digits, underscore. -/
def isWordChar (c : Char) : Bool := c.isAlpha || c.isDigit || c == '_'

/- character class `[\w\d.-]` of the placeholder regex
   `/\$\x7b(\w*:[\w\d.-]+)\x7d/g` (line 138): the trailing `-` is literal. -/
def isPathChar (c : Char) : Bool := isWordChar c || c == '.' || c == '-'

/- character class `[\w.-_]` of the env regex
   `/\$\x7benv:(\w*[\w.-_]+)\x7d/g` (line 140): `.-_` is a RANGE from
   `.` (0x2E) to `_` (0x5F); it contains `:` but not `-` (0x2D). -/
def isEnvPathChar (c : Char) : Bool := isWordChar c || ('.' ≤ c && c ≤ '_')

def slsStagePlaceholder : Str := "$\x7bsls:stage\x7d".toList

/- Attempt of `\$\x7b\w*:[\w\d.-]+\x7d` anchored at the start of `s`;
   on success returns the matched text and the remaining input.  The
   pattern is deterministic at a fixed start position because `:` is not a
   word character and `\x7d` is not a path character, so greedy matching
   needs no backtracking. -/
def matchPlaceholderAt (s : Str) : Option (Str × Str) :=
  match s with
  | c1 :: c2 :: rest =>
    if c1 == '$' && c2 == '\x7b' then
      let w := rest.takeWhile isWordChar
      match rest.dropWhile isWordChar with
      | d :: rest2 =>
        if d == ':' then
          let p := rest2.takeWhile isPathChar
          match p, rest2.dropWhile isPathChar with
          | _ :: _, e :: rest4 =>
            if e == '\x7d' then
              some ('$' :: '\x7b' :: (w ++ ':' :: (p ++ ['\x7d'])), rest4)
            else none
          | _, _ => none
        else none
      | [] => none
    else none
  | _ => none

/- `value.match(regex)` with the global placeholder regex: all
   non-overlapping matches, scanning left to right.  The fuel is the input
   length; every step consumes at least one character. -/
def findPlaceholdersAux : Nat → Str → List Str
  | 0, _ => []
  | fuel + 1, s =>
    match s with
    | [] => []
    | c :: rest =>
      match matchPlaceholderAt (c :: rest) with
      | some (m, after) => m :: findPlaceholdersAux fuel after
      | none => findPlaceholdersAux fuel rest

def findPlaceholders (s : Str) : List Str := findPlaceholdersAux s.length s

def listStartsWith : Str → Str → Bool
  | [], _ => true
  | _ :: _, [] => false
  | p :: ps, c :: cs => p == c && listStartsWith ps cs

/- First index at which `pattern` occurs in the string. -/
def firstIndexOf (pattern : Str) : Str → Option Nat
  | [] => if pattern.isEmpty then some 0 else none
  | c :: rest =>
    if listStartsWith pattern (c :: rest) then some 0
    else (firstIndexOf pattern rest).map (· + 1)

/- `slsStageRegex.test(s)` for the stateful `/g` regex
   `/\$\x7bsls:stage\x7d/g`: search only at or after `lastIndex`; on a hit
   move `lastIndex` past the match, on a miss reset it to 0.
   Returns (result, new lastIndex). -/
def slsStageRegexTest (lastIndex : Nat) (s : Str) : Bool × Nat :=
  match firstIndexOf slsStagePlaceholder (s.drop lastIndex) with
  | some i => (true, lastIndex + i + slsStagePlaceholder.length)
  | none => (false, 0)

/- Attempt of `\$\x7benv:(\w*[\w.-_]+)\x7d` anchored at the start of `s`,
   returning the match length.  Since `\w` is contained in `[\w.-_]`, the
   group is equivalent to one or more `isEnvPathChar` characters. -/
def matchEnvPlaceholderAt (s : Str) : Option Nat :=
  match s with
  | '$' :: '\x7b' :: 'e' :: 'n' :: 'v' :: ':' :: rest =>
    match rest.takeWhile isEnvPathChar, rest.dropWhile isEnvPathChar with
    | _ :: _, e :: _ =>
      if e == '\x7d' then some (6 + (rest.takeWhile isEnvPathChar).length + 1)
      else none
    | _, _ => none
  | _ => none

/- Position and length of the first env-regex match. -/
def envFirstMatch : Str → Option (Nat × Nat)
  | [] => none
  | c :: rest =>
    match matchEnvPlaceholderAt (c :: rest) with
    | some len => some (0, len)
    | none => (envFirstMatch rest).map (fun pl => (pl.1 + 1, pl.2))

/- `envRegex.test(s)` for `/\$\x7benv:(\w*[\w.-_]+)\x7d/g`, with the same
   stateful `lastIndex` behaviour as `slsStageRegexTest`. -/
def envRegexTest (lastIndex : Nat) (s : Str) : Bool × Nat :=
  match envFirstMatch (s.drop lastIndex) with
  | some il => (true, lastIndex + il.1 + il.2)
  | none => (false, 0)

/- `s.replace(pattern, replacement)` with a string pattern: only the first
   occurrence is replaced. -/
def replaceFirst (s pattern replacement : Str) : Str :=
  match firstIndexOf pattern s with
  | none => s
  | some i => s.take i ++ replacement ++ s.drop (i + pattern.length)

/- `s.split(sep)` for a one-character separator. -/
def splitOnChar (sep : Char) : Str → List Str
  | [] => [[]]
  | c :: rest =>
    if c == sep then [] :: splitOnChar sep rest
    else
      match splitOnChar sep rest with
      | [] => [[c]]
      | g :: gs => (c :: g) :: gs

/- `Set.prototype.add`: insertion-ordered, duplicates ignored. -/
def setAdd (s : List Str) (x : Str) : List Str :=
  if s.contains x then s else s ++ [x]

abbrev Env := List (Str × Str)

/- `process.env[name]` (`none` models `undefined`). -/
def envGet : Env → Str → Option Str
  | [], _ => none
  | (k, v) :: rest, name => if k == name then some v else envGet rest name

/- State threaded through one full pass of the resolver: the two regex
   `lastIndex` registers (the regexes are created once per pass, at the top
   of `resolveConfigurationVariables`), the `variableResolved` flag, and
   the accumulating set of unrecognized variable sources. -/
structure PassState where
  slsLastIndex : Nat
  envLastIndex : Nat
  variableResolved : Bool
  unrecognizedVariableSources : List Str

inductive ResolveError where
  | cannotFindEnvironmentVariable (name : Str)
  | unrecognizedVariableSources (sources : List Str)
deriving DecidableEq

/- Body of the `for (const match of matches)` loop (lines 147-169) for a
   single match `m`.  `value` is the original leaf (the env branch replaces
   into `value`, not into `newValue`). -/
def processMatch (env : Env) (stage value newValue : Str) (st : PassState) (m : Str) :
    Except ResolveError (Str × PassState) :=
  let sls := slsStageRegexTest st.slsLastIndex m
  if sls.1 then
    Except.ok (replaceFirst newValue m stage,
      { st with slsLastIndex := sls.2, variableResolved := true })
  else
    let st1 := { st with slsLastIndex := sls.2 }
    let envT := envRegexTest st1.envLastIndex m
    if envT.1 then
      let referencedPropertyPath := splitOnChar ':' ((m.drop 2).dropLast)
      let name := (referencedPropertyPath.get? 1).getD []
      match envGet env name with
      | none => Except.error (ResolveError.cannotFindEnvironmentVariable name)
      | some v =>
        let newValue2 := if m == value then v else replaceFirst value m v
        Except.ok (newValue2, { st1 with envLastIndex := envT.2, variableResolved := true })
    else
      let st2 := { st1 with envLastIndex := envT.2 }
      let variableSource := ((splitOnChar ':' (m.drop 2)).get? 0).getD []
      Except.ok (newValue,
        { st2 with unrecognizedVariableSources := setAdd st2.unrecognizedVariableSources variableSource })

def processMatchList (env : Env) (stage value : Str) :
    List Str → Str → PassState → Except ResolveError (Str × PassState)
  | [], newValue, st => Except.ok (newValue, st)
  | m :: ms, newValue, st =>
    match processMatch env stage value newValue st m with
    | Except.error e => Except.error e
    | Except.ok (nv, st2) => processMatchList env stage value ms nv st2

/- Visit of one string leaf: `value.match(regex)` is `null` when there is
   no match, in which case the leaf is left untouched. -/
def processLeaf (env : Env) (stage : Str) (value : Str) (st : PassState) :
    Except ResolveError (Str × PassState) :=
  match findPlaceholders value with
  | [] => Except.ok (value, st)
  | m :: ms => processMatchList env stage value (m :: ms) value st

/- The configuration tree: null / boolean / number / string / sequence /
   mapping, as produced by the YAML loader. -/
mutual
inductive Value where
  | null
  | bool (b : Bool)
  | num (n : Int)
  | str (s : Str)
  | arr (items : ValueList)
  | obj (fields : Fields)
inductive ValueList where
  | nil
  | cons (head : Value) (tail : ValueList)
inductive Fields where
  | nil
  | cons (key : Str) (value : Value) (tail : Fields)
end

/- `traverse(configuration).forEach(...)`: depth-first pre-order visit;
   only string leaves are rewritten; the pass state is threaded through in
   visit order.  The env-variable error aborts the pass. -/
mutual
def passValue (env : Env) (stage : Str) : Value → PassState → Except ResolveError (Value × PassState)
  | Value.str s, st =>
    match processLeaf env stage s st with
    | Except.error e => Except.error e
    | Except.ok (s2, st2) => Except.ok (Value.str s2, st2)
  | Value.arr items, st =>
    match passValueList env stage items st with
    | Except.error e => Except.error e
    | Except.ok (items2, st2) => Except.ok (Value.arr items2, st2)
  | Value.obj fields, st =>
    match passFields env stage fields st with
    | Except.error e => Except.error e
    | Except.ok (fields2, st2) => Except.ok (Value.obj fields2, st2)
  | Value.null, st => Except.ok (Value.null, st)
  | Value.bool b, st => Except.ok (Value.bool b, st)
  | Value.num n, st => Except.ok (Value.num n, st)

def passValueList (env : Env) (stage : Str) : ValueList → PassState → Except ResolveError (ValueList × PassState)
  | ValueList.nil, st => Except.ok (ValueList.nil, st)
  | ValueList.cons v vs, st =>
    match passValue env stage v st with
    | Except.error e => Except.error e
    | Except.ok (v2, st2) =>
      match passValueList env stage vs st2 with
      | Except.error e => Except.error e
      | Except.ok (vs2, st3) => Except.ok (ValueList.cons v2 vs2, st3)

def passFields (env : Env) (stage : Str) : Fields → PassState → Except ResolveError (Fields × PassState)
  | Fields.nil, st => Except.ok (Fields.nil, st)
  | Fields.cons k v fs, st =>
    match passValue env stage v st with
    | Except.error e => Except.error e
    | Except.ok (v2, st2) =>
      match passFields env stage fs st2 with
      | Except.error e => Except.error e
      | Except.ok (fs2, st3) => Except.ok (Fields.cons k v2 fs2, st3)
end

inductive ResolveResult where
  | resolved (configuration : Value)
  | failed (e : ResolveError)
  | outOfFuel

/- `resolveConfigurationVariables` (lines 133-185).  The JavaScript
   original recurses without a bound (and can genuinely diverge, e.g. when
   an environment variable expands to a placeholder for itself), so the
   embedding takes explicit fuel for the fixpoint iteration; `outOfFuel`
   marks runs the real program would keep looping on.  Fresh regexes — and
   hence `lastIndex` registers reset to 0 — are created on every pass,
   while the unrecognized-source set is carried across passes. -/
def resolveConfigurationVariables (env : Env) (stage : Str) :
    Nat → Value → List Str → ResolveResult
  | 0, _, _ => ResolveResult.outOfFuel
  | fuel + 1, configuration, unrecognized =>
    match passValue env stage configuration
        { slsLastIndex := 0, envLastIndex := 0, variableResolved := false,
          unrecognizedVariableSources := unrecognized } with
    | Except.error e => ResolveResult.failed e
    | Except.ok (resolvedConfiguration, st) =>
      if st.variableResolved then
        resolveConfigurationVariables env stage fuel resolvedConfiguration
          st.unrecognizedVariableSources
      else if st.unrecognizedVariableSources.isEmpty then
        ResolveResult.resolved resolvedConfiguration
      else
        ResolveResult.failed
          (ResolveError.unrecognizedVariableSources st.unrecognizedVariableSources)

inductive Outcome where
  | success
  | failure
deriving DecidableEq

def Outcome.isFailure : Outcome → Bool
  | Outcome.failure => true
  | Outcome.success => false

inductive ExitCode where
  | zero
  | one
deriving DecidableEq

/- The parsed command line as produced by `minimist`: `help` and the three
   reserved flags are truthiness of the corresponding option, `positional`
   is `args._` (always an array, possibly empty), `service` and `stage`
   are string options (`none` models `undefined`). -/
structure Args where
  help : Bool
  positional : List Str
  service : Option Str
  verbose : Bool
  stage : Option Str
  debug : Bool
  config : Bool
  param : Bool

def helpToken : Str := "help".toList
def devStage : Str := "dev".toList
def debugOption : Str := "debug".toList
def configOption : Str := "config".toList
def paramOption : Str := "param".toList
def servicesKey : Str := "services".toList
def providerKey : Str := "provider".toList
def nameKey : Str := "name".toList
def win32Platform : Str := "win32".toList
def sighupSignal : Str := "SIGHUP".toList
def sigintSignal : Str := "SIGINT".toList

/- In JavaScript every array is truthy, including the empty one, so the
   guard `if (!method)` on `method = args._` can never fire. -/
def jsArrayIsTruthy (_ : List Str) : Bool := true

/- JS truthiness of a possibly-undefined string (`undefined` and the empty
   string are falsy). -/
def jsStringIsTruthy : Option Str → Bool
  | none => false
  | some s => !s.isEmpty

/- `array.join(sep)` for a one-character separator. -/
def joinChar (sep : Char) : List Str → Str
  | [] => []
  | [s] => s
  | s :: rest => s ++ sep :: joinChar sep rest

inductive RouteResult where
  | helpRequested
  | invocation (componentName : Option Str) (command : Str)
deriving DecidableEq

/- The command-routing prefix of `runComponents` (lines 188-209): help
   detection, joining positional tokens with `:`, `--service` selection,
   and the first-colon split. -/
def route (args : Args) : RouteResult :=
  if args.help || args.positional.head? == some helpToken then
    RouteResult.helpRequested
  else if !jsArrayIsTruthy args.positional then
    RouteResult.helpRequested
  else
    let method := joinChar ':' args.positional
    if jsStringIsTruthy args.service then
      RouteResult.invocation args.service method
    else if method.contains ':' then
      match splitOnChar ':' method with
      | [] => RouteResult.invocation none method
      | componentName :: methods => RouteResult.invocation (some componentName) (joinChar ':' methods)
    else
      RouteResult.invocation none method

/- `typeof x === 'object'` (arrays and null are objects in JS). -/
def isObjectType : Value → Bool
  | Value.obj _ => true
  | Value.arr _ => true
  | Value.null => true
  | _ => false

def fieldsFind : Fields → Str → Option Value
  | Fields.nil, _ => none
  | Fields.cons k v rest, key => if k == key then some v else fieldsFind rest key

/- Property access `x[key]` (`none` models `undefined`). -/
def getField : Value → Str → Option Value
  | Value.obj fields, key => fieldsFind fields key
  | _, _ => none

/- JS truthiness of a possibly-undefined configuration value. -/
def jsTruthy : Option Value → Bool
  | none => false
  | some Value.null => false
  | some (Value.bool b) => b
  | some (Value.num n) => n != 0
  | some (Value.str s) => !s.isEmpty
  | some (Value.arr _) => true
  | some (Value.obj _) => true

/- `isComponentsTemplate` (lines 91-107). -/
def isComponentsTemplate (serverlessFile : Value) : Bool :=
  if !isObjectType serverlessFile then false
  else if jsTruthy (getField serverlessFile providerKey) &&
      jsTruthy ((getField serverlessFile providerKey).bind (fun p => getField p nameKey)) then
    false
  else
    jsTruthy (getField serverlessFile servicesKey)

/- `options.stage || 'dev'` as used for the run context (line 231). -/
def contextStage (args : Args) : Str :=
  match args.stage with
  | some s => if s.isEmpty then devStage else s
  | none => devStage

inductive DomainError where
  | configurationFileNotFound
  | invalidConfiguration
  | resolveFailure (e : ResolveError)
  | invalidCliOption (option : Str)
deriving DecidableEq

/- Observable steps of the main flow, in execution order. -/
inductive Action where
  | renderHelp
  | getServerlessFile
  | validateShape
  | contextInit
  | getConfiguration
  | resolveVariables
  | invokeCommand (componentName : Option Str) (command : Str)
  | storeTelemetryLocally (succeeded : Bool)
  | sendTelemetry (succeeded : Bool)
  | shutdown
  | handleError
  | exit (code : ExitCode)
deriving DecidableEq

inductive RunResult where
  | returned
  | exited (code : ExitCode)
  | threw (e : DomainError)
  | divergedInResolution
deriving DecidableEq

/- Environment of one `runComponents` run.  External collaborators appear
   as data: the (already parsed) composition file, the process
   environment, the outcome of delegating to the components service
   (`none` when it threw), and the internal success of the two telemetry
   operations. -/
structure World where
  args : Args
  serverlessFile : Option Value
  env : Env
  fuel : Nat
  invokeResult : Option (List (Str × Outcome))
  storeSucceeds : Bool
  sendSucceeds : Bool

/- Modelled from the spec: `storeTelemetryLocally`
   (src/utils/telemetry/store-locally.js, not under src/).  Per the spec,
   telemetry is "stored locally unconditionally" and "Telemetry
   store/transmit failures are swallowed with respect to exit status —
   never escalate to a crash or change the code": the call always returns,
   recording only whether the store itself succeeded. -/
def storeTelemetryStep (succeeded : Bool) : Action :=
  Action.storeTelemetryLocally succeeded

/- Modelled from the spec: `sendTelemetry` (src/utils/telemetry/send.js,
   not under src/).  Per the spec, "one transmission attempt is made (its
   success or failure never blocks or alters termination)": the call
   always returns, recording only whether transmission succeeded. -/
def sendTelemetryStep (succeeded : Bool) : Action :=
  Action.sendTelemetry succeeded

/- The configuration phase of the main flow, exactly in source order
   (lines 211-238): locate the file, shape-validate it, build and
   initialize the run context, obtain the configuration object, resolve
   its variables. -/
def configurationPhase : List Action :=
  [Action.getServerlessFile, Action.validateShape, Action.contextInit,
   Action.getConfiguration, Action.resolveVariables]

/- The reserved-option scan of lines 247-255: the `forEach` over
   `['debug', 'config', 'param']` throws at the first truthy option, so
   the error names the first reserved option in that order. -/
def firstReservedOption (args : Args) : Option Str :=
  if args.debug then some debugOption
  else if args.config then some configOption
  else if args.param then some paramOption
  else none

/- `runComponents` (lines 187-310) as a function from the run environment
   to the performed steps and the final result.  Errors thrown before the
   `try` of line 257 (configuration discovery, shape validation, variable
   resolution, the reserved-option check) escape the function and are
   reported as `RunResult.threw`. -/
def runComponents (w : World) : List Action × RunResult :=
  match route w.args with
  | RouteResult.helpRequested => ([Action.renderHelp], RunResult.returned)
  | RouteResult.invocation componentName method =>
    match w.serverlessFile with
    | none => ([Action.getServerlessFile], RunResult.threw DomainError.configurationFileNotFound)
    | some serverlessFile =>
      if !isComponentsTemplate serverlessFile then
        ([Action.getServerlessFile, Action.validateShape],
         RunResult.threw DomainError.invalidConfiguration)
      else
        match resolveConfigurationVariables w.env (contextStage w.args) w.fuel serverlessFile [] with
        | ResolveResult.outOfFuel => (configurationPhase, RunResult.divergedInResolution)
        | ResolveResult.failed e => (configurationPhase, RunResult.threw (DomainError.resolveFailure e))
        | ResolveResult.resolved _ =>
          if w.args.debug then
            (configurationPhase, RunResult.threw (DomainError.invalidCliOption debugOption))
          else if w.args.config then
            (configurationPhase, RunResult.threw (DomainError.invalidCliOption configOption))
          else if w.args.param then
            (configurationPhase, RunResult.threw (DomainError.invalidCliOption paramOption))
          else
            match w.invokeResult with
            | some outcomes =>
              let exitCode :=
                if outcomes.any (fun p => p.2.isFailure) then ExitCode.one else ExitCode.zero
              (configurationPhase ++
                 [Action.invokeCommand componentName method,
                  storeTelemetryStep w.storeSucceeds, sendTelemetryStep w.sendSucceeds,
                  Action.shutdown, Action.exit exitCode],
               RunResult.exited exitCode)
            | none =>
              (configurationPhase ++
                 [Action.invokeCommand componentName method, Action.handleError,
                  storeTelemetryStep w.storeSucceeds, sendTelemetryStep w.sendSucceeds,
                  Action.exit ExitCode.one],
               RunResult.exited ExitCode.one)

/- The module-level mutable variables shared with the exit listeners
   (lines 22-26), each possibly still unset. -/
structure GlobalState where
  options : Option Args
  method : Option Str
  configurationForTelemetry : Option Value
  componentName : Option Str
  contextConstructed : Bool

/- `generateTelemetryPayload` as observed by the listeners: the payload is
   built from whatever run-state fields are populated at that moment. -/
structure TelemetryPayload where
  configuration : Option Value
  options : Option Args
  command : Option Str
  componentName : Option Str
  interruptSignal : Option Str
  errorAttached : Bool

def generateTelemetryPayload (st : GlobalState) (errorAttached : Bool)
    (interruptSignal : Option Str) : TelemetryPayload :=
  { configuration := st.configurationForTelemetry
    options := st.options
    command := st.method
    componentName := st.componentName
    interruptSignal := interruptSignal
    errorAttached := errorAttached }

inductive UncaughtOutcome where
  | exitedAfterReport (code : ExitCode)
  | crashedInListener
deriving DecidableEq

/- The `process.once('uncaughtException', ...)` listener (lines 28-46).
   It builds `usedContext = context || new Context(...)` and stores a
   telemetry payload with the error attached; but `handleError(error,
   context.logger)` then reads `.logger` on the raw module variable
   `context`, not on `usedContext`: when the run context has not been
   constructed yet this property access itself throws, so neither the
   error report nor the `sendTelemetry(...).then(() => process.exit(1))`
   chain is reached. -/
def uncaughtExceptionListener (st : GlobalState) :
    List TelemetryPayload × UncaughtOutcome :=
  let stored := [generateTelemetryPayload st true none]
  if st.contextConstructed then
    (stored, UncaughtOutcome.exitedAfterReport ExitCode.one)
  else
    (stored, UncaughtOutcome.crashedInListener)

inductive SignalOutcome where
  | yielded
  | killedSelf (signal : Str)
deriving DecidableEq

/- The platform-specific signal-alias normalization (line 71). -/
def normalizeSignal (platform signal : Str) : Str :=
  if platform == win32Platform && signal == sighupSignal then sigintSignal else signal

/- One per-signal `process.once(signal, ...)` listener (lines 48-74).
   `otherListenerCount` is `process.listenerCount(signal)` at the time the
   listener runs (the `once` listener itself has already been removed).
   The telemetry payload is stored before the yield-or-reraise decision;
   yielding performs no termination behaviour, otherwise the (possibly
   normalized) signal is re-raised against the current process. -/
def signalListener (platform : Str) (otherListenerCount : Nat) (signal : Str)
    (st : GlobalState) : List TelemetryPayload × SignalOutcome :=
  let isOtherSigintListener := otherListenerCount != 0
  let stored := [generateTelemetryPayload st false (some signal)]
  if isOtherSigintListener then
    (stored, SignalOutcome.yielded)
  else
    (stored, SignalOutcome.killedSelf (normalizeSignal platform signal))

/- Concrete inputs used by the claim-level evaluations. -/

def doubleStageLeaf : Str := "$\x7bsls:stage\x7d-$\x7bsls:stage\x7d".toList

def doubleStageConfig : Value :=
  Value.obj (Fields.cons ("a".toList) (Value.str doubleStageLeaf) Fields.nil)

def envFooPlaceholder : Str := "$\x7benv:FOO\x7d".toList

def fooEnv : Env := [("FOO".toList, "bar".toList)]

def doubleEnvConfig : Value :=
  Value.obj (Fields.cons ("a".toList) (Value.str envFooPlaceholder)
    (Fields.cons ("b".toList) (Value.str envFooPlaceholder) Fields.nil))

def hyphenEnvConfig : Value :=
  Value.obj (Fields.cons ("a".toList) (Value.str ("$\x7benv:A-B\x7d".toList)) Fields.nil)

def colonEnvConfig : Value :=
  Value.obj (Fields.cons ("a".toList) (Value.str ("$\x7benv:A:B\x7d".toList)) Fields.nil)

def aEnv : Env := [("A".toList, "x".toList)]

def minimalComposeFile : Value :=
  Value.obj (Fields.cons servicesKey (Value.obj Fields.nil) Fields.nil)

def deployArgs : Args :=
  { help := false, positional := ["deploy".toList], service := none, verbose := false,
    stage := none, debug := false, config := false, param := false }

def okWorld : World :=
  { args := deployArgs, serverlessFile := some minimalComposeFile, env := [], fuel := 1,
    invokeResult := some [("svc".toList, Outcome.success)], storeSucceeds := true,
    sendSucceeds := true }

def debugWorld : World := { okWorld with args := { deployArgs with debug := true } }

def paramWorld : World := { okWorld with args := { deployArgs with param := true } }

def emptyArgs : Args :=
  { help := false, positional := [], service := none, verbose := false,
    stage := none, debug := false, config := false, param := false }

def emptyWorld : World :=
  { args := emptyArgs, serverlessFile := none, env := [], fuel := 1,
    invokeResult := none, storeSucceeds := true, sendSucceeds := true }

def unsetGlobalState : GlobalState :=
  { options := none, method := none, configurationForTelemetry := none,
    componentName := none, contextConstructed := false }

/- Helper lemmas about the string primitives. -/

theorem splitOnChar_of_no_sep (sep : Char) (l : Str) (h : ∀ c ∈ l, (c == sep) = false) :
    splitOnChar sep l = [l] := by
  induction l with
  | nil => rfl
  | cons c rest ih =>
    have hc := h c (List.mem_cons_self c rest)
    simp only [splitOnChar, hc]
    rw [ih (fun d hd => h d (List.mem_cons_of_mem c hd))]
    simp

theorem splitOnChar_single_sep (sep : Char) (w p : Str)
    (hw : ∀ c ∈ w, (c == sep) = false) (hp : ∀ c ∈ p, (c == sep) = false) :
    splitOnChar sep (w ++ sep :: p) = [w, p] := by
  induction w with
  | nil =>
    simp only [List.nil_append, splitOnChar, beq_self_eq_true]
    rw [splitOnChar_of_no_sep sep p hp]
    simp
  | cons c rest ih =>
    have hc := hw c (List.mem_cons_self c rest)
    simp only [List.cons_append, splitOnChar, hc, List.append_eq]
    rw [ih (fun d hd => hw d (List.mem_cons_of_mem c hd))]
    simp

theorem dropLast_append_single (l : Str) (a : Char) : (l ++ [a]).dropLast = l := by
  induction l with
  | nil => rfl
  | cons c rest ih =>
    cases h : rest ++ [a] with
    | nil => exact absurd h (by simp)
    | cons d t =>
      simp only [List.cons_append, h, List.dropLast]
      rw [← h, ih]

theorem word_char_ne_colon (c : Char) (h : isWordChar c = true) : (c == ':') = false := by
  cases hb : c == ':' with
  | false => rfl
  | true =>
    have hc : c = ':' := eq_of_beq hb
    subst hc
    exact absurd h (by decide)

theorem path_char_ne_colon (c : Char) (h : isPathChar c = true) : (c == ':') = false := by
  cases hb : c == ':' with
  | false => rfl
  | true =>
    have hc : c = ':' := eq_of_beq hb
    subst hc
    exact absurd h (by decide)

theorem splitOnChar_word_path (a b : Str) :
    (splitOnChar ':'
      ((('$' :: '\x7b' :: (a.takeWhile isWordChar ++
        ':' :: (b.takeWhile isPathChar ++ ['\x7d']))) : Str).drop 2).dropLast).length = 2 := by
  show (splitOnChar ':'
    ((a.takeWhile isWordChar ++ ':' :: (b.takeWhile isPathChar ++ ['\x7d'])).dropLast)).length = 2
  have hass : a.takeWhile isWordChar ++ ':' :: (b.takeWhile isPathChar ++ ['\x7d']) =
      (a.takeWhile isWordChar ++ ':' :: b.takeWhile isPathChar) ++ ['\x7d'] := by
    simp
  rw [hass, dropLast_append_single]
  rw [splitOnChar_single_sep ':' _ _
    (fun c hc => word_char_ne_colon c (List.mem_takeWhile_imp hc))
    (fun c hc => path_char_ne_colon c (List.mem_takeWhile_imp hc))]
  rfl

/-- C1: the claim states that a configuration whose string leaves use only
`$\x7bsls:stage\x7d` and defined `$\x7benv:X\x7d` placeholders resolves
successfully with no placeholder syntax left, also when one leaf holds
several placeholders.  The code violates this: both `/g` regexes keep
their `lastIndex` across the loop over a pass's matches, so the second of
two identical placeholders fails both `test` calls and its source `sls` —
a recognized source — is recorded as unrecognized; once the tree is
stable, the run aborts with `UNRECOGNIZED_VARIABLE_SOURCES` even though
every placeholder was substituted.  This theorem evaluates the embedded
resolver at the failing input `a: "$\x7bsls:stage\x7d-$\x7bsls:stage\x7d"`
with stage `dev`. -/
theorem resolve_two_sls_placeholders_in_one_leaf_fails :
    resolveConfigurationVariables [] ("dev".toList) 5 doubleStageConfig [] =
      ResolveResult.failed (ResolveError.unrecognizedVariableSources ["sls".toList]) := rfl

/-- C2: after the main flow completes without a thrown error, the process
exits 0 when every recorded sub-command outcome is `success` and exits 1
when at least one is `failure`, even with no thrown error. -/
theorem exit_status_follows_component_outcomes
    (w : World) (cn : Option Str) (cmd : Str) (f r : Value)
    (outcomes : List (Str × Outcome))
    (hroute : route w.args = RouteResult.invocation cn cmd)
    (hfile : w.serverlessFile = some f)
    (htemplate : isComponentsTemplate f = true)
    (hresolve : resolveConfigurationVariables w.env (contextStage w.args) w.fuel f [] =
      ResolveResult.resolved r)
    (hdebug : w.args.debug = false) (hconfig : w.args.config = false)
    (hparam : w.args.param = false)
    (hinvoke : w.invokeResult = some outcomes) :
    ((∀ p ∈ outcomes, p.2 = Outcome.success) →
      (runComponents w).2 = RunResult.exited ExitCode.zero) ∧
    ((∃ p ∈ outcomes, p.2 = Outcome.failure) →
      (runComponents w).2 = RunResult.exited ExitCode.one) := by
  have hrun : (runComponents w).2 = RunResult.exited
      (if outcomes.any (fun p => p.2.isFailure) then ExitCode.one else ExitCode.zero) := by
    simp only [runComponents, hroute, hfile, htemplate, hresolve, hdebug, hconfig, hparam,
      hinvoke, Bool.not_true, Bool.false_eq_true, if_false]
  constructor
  · intro hall
    have hany : outcomes.any (fun p => p.2.isFailure) = false := by
      cases ha : outcomes.any (fun p => p.2.isFailure) with
      | false => rfl
      | true =>
        obtain ⟨p, hp, hfail⟩ := List.any_eq_true.mp ha
        rw [hall p hp] at hfail
        exact absurd hfail (by decide)
    rw [hrun, hany]
    rfl
  · intro ⟨p, hp, hfail⟩
    have hany : outcomes.any (fun p => p.2.isFailure) = true :=
      List.any_eq_true.mpr ⟨p, hp, by rw [hfail]; rfl⟩
    rw [hrun, hany]
    rfl

/-- C2 witness: a run with one successful sub-command exits 0. -/
theorem exit_status_follows_component_outcomes_check :
    (runComponents okWorld).2 = RunResult.exited ExitCode.zero :=
  (exit_status_follows_component_outcomes okWorld none ("deploy".toList)
    minimalComposeFile minimalComposeFile [("svc".toList, Outcome.success)]
    rfl rfl rfl rfl rfl rfl rfl rfl).1 (by decide)

/-- C3: when command execution succeeds with all outcomes `success`, a
failure of telemetry storing or transmission neither changes the exit
status (still 0) nor crashes the run (the telemetry operations are
modelled from the spec as non-throwing; only their internal success flag
varies, and the result is independent of it). -/
theorem telemetry_failure_never_changes_exit
    (w : World) (cn : Option Str) (cmd : Str) (f r : Value)
    (outcomes : List (Str × Outcome))
    (hroute : route w.args = RouteResult.invocation cn cmd)
    (hfile : w.serverlessFile = some f)
    (htemplate : isComponentsTemplate f = true)
    (hresolve : resolveConfigurationVariables w.env (contextStage w.args) w.fuel f [] =
      ResolveResult.resolved r)
    (hdebug : w.args.debug = false) (hconfig : w.args.config = false)
    (hparam : w.args.param = false)
    (hinvoke : w.invokeResult = some outcomes)
    (hall : ∀ p ∈ outcomes, p.2 = Outcome.success) :
    ∀ storeResult sendResult : Bool,
      (runComponents { w with storeSucceeds := storeResult,
                              sendSucceeds := sendResult }).2 =
        RunResult.exited ExitCode.zero := by
  intro storeResult sendResult
  have hany : outcomes.any (fun p => p.2.isFailure) = false := by
    cases ha : outcomes.any (fun p => p.2.isFailure) with
    | false => rfl
    | true =>
      obtain ⟨p, hp, hfail⟩ := List.any_eq_true.mp ha
      rw [hall p hp] at hfail
      exact absurd hfail (by decide)
  simp only [runComponents, hroute, hfile, htemplate, hresolve, hdebug, hconfig, hparam,
    hinvoke, hany, Bool.not_true, Bool.false_eq_true, if_false]

/-- C3 witness: with both telemetry operations failing, the successful run
still exits 0. -/
theorem telemetry_failure_never_changes_exit_check :
    (runComponents { okWorld with storeSucceeds := false, sendSucceeds := false }).2 =
      RunResult.exited ExitCode.zero :=
  telemetry_failure_never_changes_exit okWorld none ("deploy".toList)
    minimalComposeFile minimalComposeFile [("svc".toList, Outcome.success)]
    rfl rfl rfl rfl rfl rfl rfl rfl (by decide) false false

/-- C4: the claim states the uncaught-exception listener stores telemetry,
reports the error and forces exit 1, also for errors thrown before the run
context exists.  The code violates the last part: it builds `usedContext`
for exactly that case but then calls `handleError(error, context.logger)`
on the raw module variable, so with no context constructed the property
access itself throws inside the listener — telemetry is stored, but
neither the error report nor the `process.exit(1)` chain is reached.
This theorem evaluates the embedded listener in the unset state. -/
theorem uncaught_listener_crashes_before_reporting_without_context :
    uncaughtExceptionListener unsetGlobalState =
      ([generateTelemetryPayload unsetGlobalState true none],
       UncaughtOutcome.crashedInListener) := rfl

/-- C5: the claim states that a zero-substitution pass with a non-empty
unrecognized-source set fails naming exactly the distinct unrecognized
sources, with no recognized source included.  The code violates the last
part: because of the shared `lastIndex` of the `/g` env regex, the second
of two `$\x7benv:FOO\x7d` leaves (FOO defined) fails both tests in the
first pass and the recognized source `env` is added to the set, so the
stable pass reports `env` as unrecognized.  This theorem evaluates the
embedded resolver at that input. -/
theorem stable_pass_error_names_recognized_source :
    resolveConfigurationVariables fooEnv ("dev".toList) 5 doubleEnvConfig [] =
      ResolveResult.failed (ResolveError.unrecognizedVariableSources ["env".toList]) := rfl

/-- C6: the claim states any configuration with `$\x7benv:V\x7d` and `V`
undefined fails with a missing-environment-variable error naming `V`.  The
code violates this for paths containing a hyphen: `V = A-B` is a
placeholder (the outer pattern's path class allows `-`), but the env regex
class `[\w.-_]` is the range 0x2E-0x5F which excludes `-`, so the match
fails the env test, the recognized source `env` is recorded as
unrecognized, and the run fails with `UNRECOGNIZED_VARIABLE_SOURCES: env`
instead of naming `A-B`.  This theorem evaluates the embedded resolver at
that failing input (environment empty, so `A-B` is undefined). -/
theorem hyphenated_env_placeholder_not_reported_missing :
    resolveConfigurationVariables [] ("dev".toList) 5 hyphenEnvConfig [] =
      ResolveResult.failed (ResolveError.unrecognizedVariableSources ["env".toList]) := rfl

/-- C7 counterexample: the claim states that in `$\x7benv:P\x7d` with a
colon inside `P` only the segment before the colon names the environment
variable and its value is substituted.  In fact the placeholder pattern's
path class has no colon, so `a: "$\x7benv:A:B\x7d"` (with `A` defined as
`x`) never matches: resolution succeeds and returns the configuration
unchanged, placeholder intact — nothing is substituted. -/
theorem colon_env_placeholder_left_untouched :
    resolveConfigurationVariables aEnv ("dev".toList) 5 colonEnvConfig [] =
      ResolveResult.resolved colonEnvConfig := rfl

/-- C7 (amended): every actual match of the placeholder pattern contains
exactly one colon — `match.substring(2, length - 1).split(':')` always has
exactly two segments, so the environment-variable name is always the
entire path and the case of a further colon inside the path never arises
(such text never matches and is left untouched). -/
theorem placeholder_match_splits_in_two (s m rest : Str)
    (h : matchPlaceholderAt s = some (m, rest)) :
    (splitOnChar ':' ((m.drop 2).dropLast)).length = 2 := by
  cases s with
  | nil => exact absurd h (by simp [matchPlaceholderAt])
  | cons c1 t =>
    cases t with
    | nil => exact absurd h (by simp [matchPlaceholderAt])
    | cons c2 rest0 =>
      simp only [matchPlaceholderAt] at h
      split at h
      · split at h
        · split at h
          · split at h
            · split at h
              · injection h with h1
                injection h1 with h2 h3
                rw [← h2]
                exact splitOnChar_word_path _ _
              · exact absurd h (by simp)
            · exact absurd h (by simp)
          · exact absurd h (by simp)
        · exact absurd h (by simp)
      · exact absurd h (by simp)

/-- C7 witness: instantiation at the match `$\x7benv:FOO\x7d`. -/
theorem placeholder_match_splits_in_two_check :
    (splitOnChar ':' (((envFooPlaceholder : Str).drop 2).dropLast)).length = 2 :=
  placeholder_match_splits_in_two envFooPlaceholder envFooPlaceholder [] rfl

/-- C8 counterexample: the claim states a `--debug` run is rejected before
any configuration work begins, with file loading, shape validation and
variable resolution never attempted.  In fact the reserved-option check
sits after all of them: on a `--debug` run the trace performs the whole
configuration phase — including variable resolution — before the
`INVALID_CLI_OPTION` error is thrown. -/
theorem debug_run_attempts_configuration_work :
    (runComponents debugWorld).1.contains Action.resolveVariables = true ∧
    (runComponents debugWorld).2 =
      RunResult.threw (DomainError.invalidCliOption debugOption) := ⟨rfl, rfl⟩

/-- C8 (amended): a run whose options include `--debug`, `--config` or
`--param` is rejected with the dedicated reserved-option error naming the
first such option (the code scans them in the order debug, config,
param), but only after configuration loading, shape validation and
variable resolution have run; no component command is ever invoked on
such a run. -/
theorem reserved_option_rejected_after_configuration_work
    (w : World) (cn : Option Str) (cmd : Str) (f r : Value) (opt : Str)
    (hroute : route w.args = RouteResult.invocation cn cmd)
    (hfile : w.serverlessFile = some f)
    (htemplate : isComponentsTemplate f = true)
    (hresolve : resolveConfigurationVariables w.env (contextStage w.args) w.fuel f [] =
      ResolveResult.resolved r)
    (hreserved : firstReservedOption w.args = some opt) :
    (runComponents w).2 = RunResult.threw (DomainError.invalidCliOption opt) ∧
    Action.resolveVariables ∈ (runComponents w).1 ∧
    (∀ n c, Action.invokeCommand n c ∉ (runComponents w).1) := by
  have hrun : runComponents w =
      (configurationPhase, RunResult.threw (DomainError.invalidCliOption opt)) := by
    simp only [firstReservedOption] at hreserved
    cases hd : w.args.debug with
    | true =>
      rw [hd] at hreserved
      simp only [if_true] at hreserved
      injection hreserved with hopt
      subst hopt
      simp only [runComponents, hroute, hfile, htemplate, hresolve, hd,
        Bool.not_true, Bool.false_eq_true, if_false, if_true]
    | false =>
      rw [hd] at hreserved
      simp only [Bool.false_eq_true, if_false] at hreserved
      cases hc : w.args.config with
      | true =>
        rw [hc] at hreserved
        simp only [if_true] at hreserved
        injection hreserved with hopt
        subst hopt
        simp only [runComponents, hroute, hfile, htemplate, hresolve, hd, hc,
          Bool.not_true, Bool.false_eq_true, if_false, if_true]
      | false =>
        rw [hc] at hreserved
        simp only [Bool.false_eq_true, if_false] at hreserved
        cases hp : w.args.param with
        | true =>
          rw [hp] at hreserved
          simp only [if_true] at hreserved
          injection hreserved with hopt
          subst hopt
          simp only [runComponents, hroute, hfile, htemplate, hresolve, hd, hc, hp,
            Bool.not_true, Bool.false_eq_true, if_false, if_true]
        | false =>
          rw [hp] at hreserved
          simp at hreserved
  refine ⟨by rw [hrun], by rw [hrun]; simp [configurationPhase], ?_⟩
  intro n c
  rw [hrun]
  simp [configurationPhase]

/-- C8 witness: instantiation at a concrete `--param`-only run over a
valid minimal composition file, exercising a non-debug reserved option. -/
theorem reserved_option_rejected_after_configuration_work_check :
    (runComponents paramWorld).2 =
      RunResult.threw (DomainError.invalidCliOption paramOption) ∧
    Action.resolveVariables ∈ (runComponents paramWorld).1 ∧
    (∀ n c, Action.invokeCommand n c ∉ (runComponents paramWorld).1) :=
  reserved_option_rejected_after_configuration_work paramWorld none ("deploy".toList)
    minimalComposeFile minimalComposeFile paramOption rfl rfl rfl rfl rfl

/-- C9: the claim states that with no positional tokens at all the router
returns HelpRequested exactly as for a help flag.  The code violates this:
`method = args._` is always an array and every array is truthy in
JavaScript, so the `if (!method)` help branch can never fire; with no
positional tokens and no help flag the router produces a global invocation
with the empty command string and the run proceeds to configuration
loading (here: failing on the missing file) instead of rendering help. -/
theorem no_positional_tokens_still_produce_invocation :
    route emptyArgs = RouteResult.invocation none [] ∧
    runComponents emptyWorld =
      ([Action.getServerlessFile], RunResult.threw DomainError.configurationFileNotFound) :=
  ⟨rfl, rfl⟩

/-- C10: each signal listener first stores a telemetry payload built from
the currently populated run-state fields, then: if another listener for
the same signal is registered elsewhere it yields without any termination
behaviour; otherwise it re-raises the signal against the current process,
normalizing SIGHUP to SIGINT on the win32 platform. -/
theorem signal_listener_stores_then_yields_or_reraises
    (platform : Str) (otherListenerCount : Nat) (signal : Str) (st : GlobalState) :
    signalListener platform otherListenerCount signal st =
      ([generateTelemetryPayload st false (some signal)],
       if otherListenerCount == 0 then
         SignalOutcome.killedSelf (normalizeSignal platform signal)
       else SignalOutcome.yielded) := by
  cases otherListenerCount with
  | zero => rfl
  | succ k => rfl

end ServerlessCompose
